import Mathlib

/-!
Verification of the interaction core of the handsontable grid widget:
the event router (`src/tableView.js`) and the editor lifecycle manager
(`src/editorManager.js`).  The JavaScript sources are shallowly embedded:
DOM handles and external collaborators (HookBus listeners, Renderer,
Editor implementations, the data store) are represented by oracle inputs
and by an explicit trace of the outward calls a handler performs, while
all control flow and state mutation of the two source files is translated
directly.
-/

namespace HT

/-- A (row, column) pair of integers, as the walkontable CellCoords object. -/
structure CellCoords where
  row : Int
  col : Int
  deriving DecidableEq, Repr

/-- A selection range: anchor endpoint, open endpoint and the highlight
(active) cell, as the walkontable CellRange object. -/
structure CellRange where
  «from» : CellCoords
  «to» : CellCoords
  highlight : CellCoords
  deriving DecidableEq, Repr

/-- The observable facts about the active editor instance that the two
source files query: `isOpened()`, `isWaiting()` and
`cellProperties.readOnly`. -/
structure ActiveEditor where
  opened : Bool
  waiting : Bool
  readOnly : Bool
  deriving DecidableEq, Repr

/-- The `fragmentSelection` setting: `true`, the string `'cell'`, or a
falsy value (`false`/`undefined`). -/
inductive FragmentSelection where
  | fsTrue
  | fsCell
  | fsFalse
  deriving DecidableEq, Repr

/-- JavaScript truthiness of the `fragmentSelection` setting: only the
falsy variant is false. -/
def FragmentSelection.truthy : FragmentSelection → Bool
  | .fsFalse => false
  | _ => true

/-- A DOM node relevant to the document-level mousedown handler: the
document root, the widget root container, the scrollable holder, or any
other element (identified by a number). -/
inductive DocNode where
  | documentElement
  | rootElement
  | holder
  | other (n : Nat)
  deriving DecidableEq, Repr

/-- The `outsideClickDeselects` setting: a boolean, or a predicate over
the original event target. -/
inductive OutsideClickSetting where
  | obBool (b : Bool)
  | pred (f : DocNode → Bool)

/-- The `viewportRowRenderingOffset` / `viewportColumnRenderingOffset`
setting: a number, the string `'auto'`, or anything else. -/
inductive ViewportOffsetSetting where
  | num (n : Int)
  | auto
  | otherSetting
  deriving DecidableEq, Repr

/-- The row/column window handed to the viewport calculator overrides. -/
structure ViewportCalc where
  startRow : Int
  endRow : Int
  startColumn : Int
  endColumn : Int
  deriving DecidableEq, Repr

/-- Keyboard codes dispatched by `EditorManager.onKeyDown`.  Constructors
stand for the members of `KEY_CODES` the source consults (A = 65,
arrows 37-40, TAB 9, BACKSPACE 8, DELETE 46, F2 113, ENTER 13,
ESCAPE 27, HOME 36, END 35, PAGE_UP 33, PAGE_DOWN 34, the ctrl/meta
codes 17/91/93/224); every other numeric code, including the IME
composition code 229, is `other n`. -/
inductive KeyCode where
  | A
  | ARROW_UP
  | ARROW_DOWN
  | ARROW_LEFT
  | ARROW_RIGHT
  | TAB
  | BACKSPACE
  | DELETE
  | F2
  | ENTER
  | ESCAPE
  | HOME
  | END
  | PAGE_UP
  | PAGE_DOWN
  | CONTROL
  | COMMAND_LEFT
  | COMMAND_RIGHT
  | COMMAND_FIREFOX
  | other (n : Nat)
  deriving DecidableEq, Repr

/-- A keydown event as observed by `onKeyDown`.  The field
`stoppedByBeforeKeyDown` is the value `isImmediatePropagationStopped`
returns when consulted right after the `beforeKeyDown` hook ran (the
hook's only modelled mutation channel). -/
structure KeyEvent where
  keyCode : KeyCode
  shiftKey : Bool
  ctrlKey : Bool
  metaKey : Bool
  altKey : Bool
  stoppedByBeforeKeyDown : Bool
  deriving DecidableEq, Repr

/-- A DOM event target as the router's text-selection permission test
observes it: whether it is a native text-input element (`isInput`) and
whether it sits inside the grid body (`isChildOf(el, spreader)`). -/
structure DomTarget where
  isInputEl : Bool
  isChildOfSpreader : Bool
  deriving DecidableEq, Repr

/-- The outward calls a handler performs, in order.  `finishEditing`,
`beginEditing`, `focus`, `enableFullEditMode` are Editor lifecycle calls;
`invokeCallback` is the synchronous invocation of a close callback
(callbacks are identified by a number); the remaining constructors are
calls on the grid facade, the selection model, the hook bus or the DOM. -/
inductive Action where
  | hook (name : String)
  | listen
  | handleMouseEvent
  | selectionFinish
  | finishEditing (restoreOriginalValue : Bool) (ctrlDown : Option Bool) (callback : Option Nat)
  | invokeCallback (id : Nat) (dataSaved : Bool)
  | beginEditing (newInitialValue : Option String)
  | enableFullEditMode
  | focus
  | selectAll
  | emptySelectedCells
  | editorPrepare (row col : Int)
  | transformStart (dRow dCol : Int) (force : Bool)
  | transformEnd (dRow dCol : Int)
  | setRangeStart (row col : Int)
  | setRangeEnd (row col : Int)
  | preventDefault
  | stopPropagation
  | stopImmediatePropagation
  | deselectCell
  | destroyEditorCall (revertOriginal prop : Bool)
  | clearTextSelection
  | windowFocus
  deriving DecidableEq, Repr

/-- The grid settings consulted by the embedded handlers. -/
structure Settings where
  enterBeginsEditing : Bool
  enterMoves : CellCoords
  tabMoves : CellCoords
  autoGrowRows : Bool
  fragmentSelection : FragmentSelection
  outsideClickDeselects : OutsideClickSetting

/-- The shared mutable state of the widget instance that the embedded
handlers read and write: listening/destroyed flags, the editor lock, the
last key code, the current selection, the active editor, the grid
dimensions and the settings.  `resolvedEditorClass` is the oracle input
standing for the editor-strategy resolution (`getCellEditor`) for the
highlighted cell. -/
structure GridState where
  listening : Bool
  destroyed : Bool
  lock : Bool
  lastKeyCode : KeyCode
  selection : Option CellRange
  activeEditor : Option ActiveEditor
  resolvedEditorClass : Option ActiveEditor
  rows : Int
  cols : Int
  visibleRows : Int
  settings : Settings

/-- The private per-view state (`privatePool`) of `TableView`:  the main
walkontable surface id `wt`, the currently active surface `activeWt`, and
the two pointer flags. -/
structure ViewPriv where
  wt : Nat
  activeWt : Nat
  mouseDown : Bool
  selectionMouseDown : Bool
  deriving DecidableEq, Repr

/-- `Math.max` on two integers, written so that it reduces by computation. -/
def mathMax (a b : Int) : Int :=
  if a ≤ b then b else a

/-- `Math.min` on two integers, written so that it reduces by computation. -/
def mathMin (a b : Int) : Int :=
  if a ≤ b then a else b

/-- Ceiling of `a / b` for `b > 0`, as `Math.ceil` of the exact quotient;
the source computes `Math.ceil(center / total * 12)`, embedded here as
`mathCeilDiv (center * 12) total`. -/
def mathCeilDiv (a b : Int) : Int :=
  (a + b - 1).ediv b

/-- `viewportRowCalculatorOverride` from `tableView.js`: widens the row
window of `calc` by the configured overscan.  `rows` is
`instance.countRows()`, `viewportRowRenderingOffset` and `fixedRowsTop`
are the settings the closure reads.  Returns the adjusted calculator and
the trailing `afterViewportRowCalculatorOverride` notification. -/
def viewportRowCalculatorOverride (rows : Int)
    (viewportRowRenderingOffset : ViewportOffsetSetting) (fixedRowsTop : Nat)
    («calc» : ViewportCalc) : ViewportCalc × List Action :=
  let viewportOffset :=
    if viewportRowRenderingOffset = ViewportOffsetSetting.auto ∧ fixedRowsTop ≠ 0 then
      ViewportOffsetSetting.num 10
    else viewportRowRenderingOffset
  let calc1 :=
    match viewportOffset with
    | ViewportOffsetSetting.num n =>
        { «calc» with
            startRow := mathMax («calc».startRow - n) 0,
            endRow := mathMin («calc».endRow + n) (rows - 1) }
    | _ => «calc»
  let calc2 :=
    match viewportOffset with
    | ViewportOffsetSetting.auto =>
        let center := calc1.startRow + calc1.endRow - calc1.startRow
        let offset := mathCeilDiv (center * 12) rows
        { calc1 with
            startRow := mathMax (calc1.startRow - offset) 0,
            endRow := mathMin (calc1.endRow + offset) (rows - 1) }
    | _ => calc1
  (calc2, [Action.hook "afterViewportRowCalculatorOverride"])

/-- `viewportColumnCalculatorOverride` from `tableView.js`.  Note: in the
`'auto'` branch the source assigns `«calc».startRow` from
`«calc».startColumn - offset` (and leaves `startColumn` untouched); the
embedding preserves this. -/
def viewportColumnCalculatorOverride (cols : Int)
    (viewportColumnRenderingOffset : ViewportOffsetSetting) (fixedColumnsLeft : Nat)
    («calc» : ViewportCalc) : ViewportCalc × List Action :=
  let viewportOffset :=
    if viewportColumnRenderingOffset = ViewportOffsetSetting.auto ∧ fixedColumnsLeft ≠ 0 then
      ViewportOffsetSetting.num 10
    else viewportColumnRenderingOffset
  let calc1 :=
    match viewportOffset with
    | ViewportOffsetSetting.num n =>
        { «calc» with
            startColumn := mathMax («calc».startColumn - n) 0,
            endColumn := mathMin («calc».endColumn + n) (cols - 1) }
    | _ => «calc»
  let calc2 :=
    match viewportOffset with
    | ViewportOffsetSetting.auto =>
        let center := calc1.startColumn + calc1.endColumn - calc1.startColumn
        let offset := mathCeilDiv (center * 12) cols
        { calc1 with
            startRow := mathMax (calc1.startColumn - offset) 0,
            endColumn := mathMin (calc1.endColumn + offset) (cols - 1) }
    | _ => calc1
  (calc2, [Action.hook "afterViewportColumnCalculatorOverride"])

/-- Clamping of a coordinate to the grid, as the selection transforms do:
each axis is clamped to `[0, count - 1]`. -/
def clampCoord (rows cols : Int) (c : CellCoords) : CellCoords :=
  { row := mathMax 0 (mathMin c.row (rows - 1)),
    col := mathMax 0 (mathMin c.col (cols - 1)) }

/-- Modelled from the spec: `transformStart(dRow, dCol, growIfNeeded)` of
the SelectionModel (its source is not among the provided files).  It moves
both the range anchor and the highlight by the delta, computed from the
current highlight, clamping to the grid; with `growIfNeeded`, when the
unclamped target is exactly one past the last row and the configuration
allows auto-growth, one row is appended first. -/
def transformStart (st : GridState) (dRow dCol : Int) (growIfNeeded : Bool) : GridState :=
  match st.selection with
  | none => st
  | some r =>
    let target : CellCoords := { row := r.highlight.row + dRow, col := r.highlight.col + dCol }
    let st1 :=
      if growIfNeeded = true ∧ target.row = st.rows ∧ st.settings.autoGrowRows = true then
        { st with rows := st.rows + 1 }
      else st
    let c := clampCoord st1.rows st1.cols target
    { st1 with selection := some { «from» := c, «to» := c, highlight := c } }

/-- Modelled from the spec: `transformEnd(dRow, dCol)` moves only the
range's open end, clamping the same way; anchor and highlight are
untouched. -/
def transformEnd (st : GridState) (dRow dCol : Int) : GridState :=
  match st.selection with
  | none => st
  | some r =>
    let c := clampCoord st.rows st.cols { row := r.«to».row + dRow, col := r.«to».col + dCol }
    { st with selection := some { r with «to» := c } }

/-- Modelled from the spec: `setRangeStart(coords)` starts a new range at
the given cell. -/
def setRangeStart (st : GridState) (c : CellCoords) : GridState :=
  { st with selection := some { «from» := c, «to» := c, highlight := c } }

/-- Modelled from the spec: `setRangeEnd(coords)` sets the current range's
open end directly. -/
def setRangeEnd (st : GridState) (c : CellCoords) : GridState :=
  match st.selection with
  | none => st
  | some r => { st with selection := some { r with «to» := c } }

/-- Modelled from the spec: `instance.getSelectedLast()` returns the last
selected range as `[row, col, rowEnd, colEnd]`, or nothing when no
selection exists. -/
def getSelectedLast (st : GridState) : Option (Int × Int × Int × Int) :=
  st.selection.map fun r => (r.«from».row, r.«from».col, r.«to».row, r.«to».col)

/-- `TableView.isSelectedOnlyCell` from `tableView.js`: the last selected
range exists and collapses to a single cell. -/
def isSelectedOnlyCell (st : GridState) : Bool :=
  match getSelectedLast st with
  | some (row, col, rowEnd, colEnd) => row == rowEnd && col == colEnd
  | none => false

/-- `TableView.isCellEdited` from `tableView.js`: an active editor exists
and is opened. -/
def isCellEdited (st : GridState) : Bool :=
  match st.activeEditor with
  | some e => e.opened
  | none => false

/-- `EditorManager.isEditorOpened` from `editorManager.js`: the active
editor exists and is opened. -/
def isEditorOpened (st : GridState) : Bool :=
  match st.activeEditor with
  | some e => e.opened
  | none => false

/-- The source conjunct `this.activeEditor && this.activeEditor.isWaiting()`. -/
def activeEditorIsWaiting (st : GridState) : Bool :=
  match st.activeEditor with
  | some e => e.waiting
  | none => false

/-- `EditorManager.lockEditor`. -/
def lockEditor (st : GridState) : GridState :=
  { st with lock := true }

/-- `EditorManager.unlockEditor`. -/
def unlockEditor (st : GridState) : GridState :=
  { st with lock := false }

/-- `EditorManager.closeEditor(restoreOriginalValue, ctrlDown, callback)`:
with an active editor, delegate to its `finishEditing` with the same
arguments; otherwise invoke the callback (if any) with `false`. -/
def closeEditor (st : GridState) (restoreOriginalValue : Bool)
    (ctrlDown : Option Bool) (callback : Option Nat) : GridState × List Action :=
  match st.activeEditor with
  | some _ => (st, [Action.finishEditing restoreOriginalValue ctrlDown callback])
  | none =>
    match callback with
    | some c => (st, [Action.invokeCallback c false])
    | none => (st, [])

/-- `EditorManager.closeEditorAndSaveChanges(ctrlDown)`. -/
def closeEditorAndSaveChanges (st : GridState) (ctrlDown : Bool) : GridState × List Action :=
  closeEditor st false (some ctrlDown) none

/-- `EditorManager.closeEditorAndRestoreOriginalValue(ctrlDown)`. -/
def closeEditorAndRestoreOriginalValue (st : GridState) (ctrlDown : Bool) :
    GridState × List Action :=
  closeEditor st true (some ctrlDown) none

/-- `EditorManager.destroyEditor(revertOriginal)`: closes the current
editor unless the lock flag is set; `ctrlDown` and the callback are not
passed (`undefined`). -/
def destroyEditor (st : GridState) (revertOriginal : Bool) : GridState × List Action :=
  if st.lock then (st, [])
  else closeEditor st revertOriginal none none

/-- `EditorManager.prepareEditor`: no-op while locked; with a `WAITING`
editor, defers through `closeEditor` (the retry continuation that
re-invokes `prepareEditor` on a successful save is callback id 0 in this
embedding); otherwise resolves the editor strategy for the highlighted
cell (the `resolvedEditorClass` oracle) and either prepares the new
active editor or clears the reference. -/
def prepareEditor (st : GridState) : GridState × List Action :=
  if st.lock then (st, [])
  else if activeEditorIsWaiting st then
    closeEditor st false (some false) (some 0)
  else
    match st.selection with
    | some r =>
      match st.resolvedEditorClass with
      | some e =>
          ({ st with activeEditor := some e },
           [Action.editorPrepare r.highlight.row r.highlight.col])
      | none => ({ st with activeEditor := none }, [])
    | none => (st, [])

/-- `EditorManager.moveSelectionAfterEnter(shiftKey)`: move by the
configured `enterMoves` delta, reversed under Shift; the forward move may
grow the grid by one row. -/
def moveSelectionAfterEnter (st : GridState) (shiftKey : Bool) : GridState × List Action :=
  let enterMoves := st.settings.enterMoves
  if shiftKey then
    (transformStart st (-enterMoves.row) (-enterMoves.col) false,
     [Action.transformStart (-enterMoves.row) (-enterMoves.col) false])
  else
    (transformStart st enterMoves.row enterMoves.col true,
     [Action.transformStart enterMoves.row enterMoves.col true])

/-- `EditorManager.moveSelectionUp(shiftKey)`. -/
def moveSelectionUp (st : GridState) (shiftKey : Bool) : GridState × List Action :=
  if shiftKey then (transformEnd st (-1) 0, [Action.transformEnd (-1) 0])
  else (transformStart st (-1) 0 false, [Action.transformStart (-1) 0 false])

/-- `EditorManager.moveSelectionDown(shiftKey)`. -/
def moveSelectionDown (st : GridState) (shiftKey : Bool) : GridState × List Action :=
  if shiftKey then (transformEnd st 1 0, [Action.transformEnd 1 0])
  else (transformStart st 1 0 false, [Action.transformStart 1 0 false])

/-- `EditorManager.moveSelectionRight(shiftKey)`. -/
def moveSelectionRight (st : GridState) (shiftKey : Bool) : GridState × List Action :=
  if shiftKey then (transformEnd st 0 1, [Action.transformEnd 0 1])
  else (transformStart st 0 1 false, [Action.transformStart 0 1 false])

/-- `EditorManager.moveSelectionLeft(shiftKey)`. -/
def moveSelectionLeft (st : GridState) (shiftKey : Bool) : GridState × List Action :=
  if shiftKey then (transformEnd st 0 (-1), [Action.transformEnd 0 (-1)])
  else (transformStart st 0 (-1) false, [Action.transformStart 0 (-1) false])

/-- `EditorManager.openEditor(newInitialValue, event)`: no-op without an
active editor; on a read-only cell only the Enter-triggered post-edit
move happens; otherwise the editor's `beginEditing` is invoked with the
initial value. -/
def openEditor (st : GridState) (newInitialValue : Option String)
    (ev : Option KeyEvent) : GridState × List Action :=
  match st.activeEditor with
  | none => (st, [])
  | some e =>
    if e.readOnly then
      match ev with
      | some ev1 =>
          if ev1.keyCode = KeyCode.ENTER then moveSelectionAfterEnter st false
          else (st, [])
      | none => (st, [])
    else
      (st, [Action.beginEditing newInitialValue])

/-- Modelled from the spec: `isMetaKey` from `helpers/unicode` (not among
the provided files) is true exactly for the navigation/editing keys of
the command table. -/
def isMetaKey (k : KeyCode) : Bool :=
  match k with
  | KeyCode.ARROW_UP | KeyCode.ARROW_DOWN | KeyCode.ARROW_LEFT | KeyCode.ARROW_RIGHT
  | KeyCode.TAB | KeyCode.BACKSPACE | KeyCode.DELETE | KeyCode.F2 | KeyCode.ENTER
  | KeyCode.ESCAPE | KeyCode.HOME | KeyCode.END
  | KeyCode.PAGE_UP | KeyCode.PAGE_DOWN => true
  | _ => false

/-- Modelled from the spec: `isCtrlMetaKey` from `helpers/unicode` is true
for the Control/Command key codes themselves. -/
def isCtrlMetaKey (k : KeyCode) : Bool :=
  match k with
  | KeyCode.CONTROL | KeyCode.COMMAND_LEFT
  | KeyCode.COMMAND_RIGHT | KeyCode.COMMAND_FIREFOX => true
  | _ => false

/-- The `rangeModifier` selected by `onKeyDown`: `setRangeEnd` when Shift
is held, else `setRangeStart`, with its trace record. -/
def rangeModifier (st : GridState) (shiftKey : Bool) (c : CellCoords) : GridState × List Action :=
  if shiftKey then (setRangeEnd st c, [Action.setRangeEnd c.row c.col])
  else (setRangeStart st c, [Action.setRangeStart c.row c.col])

/-- The `switch (event.keyCode)` dispatch of `EditorManager.onKeyDown`. -/
def onKeyDownSwitch (st : GridState) (ev : KeyEvent) (ctrlDown : Bool) : GridState × List Action :=
  match ev.keyCode with
  | KeyCode.A =>
      if !isEditorOpened st && ctrlDown then
        (st, [Action.selectAll, Action.preventDefault, Action.stopPropagation])
      else (st, [])
  | KeyCode.ARROW_UP =>
      let p := if isEditorOpened st && !activeEditorIsWaiting st then
                 closeEditorAndSaveChanges st ctrlDown
               else (st, [])
      let q := moveSelectionUp p.1 ev.shiftKey
      (q.1, p.2 ++ q.2 ++ [Action.preventDefault, Action.stopPropagation])
  | KeyCode.ARROW_DOWN =>
      let p := if isEditorOpened st && !activeEditorIsWaiting st then
                 closeEditorAndSaveChanges st ctrlDown
               else (st, [])
      let q := moveSelectionDown p.1 ev.shiftKey
      (q.1, p.2 ++ q.2 ++ [Action.preventDefault, Action.stopPropagation])
  | KeyCode.ARROW_RIGHT =>
      let p := if isEditorOpened st && !activeEditorIsWaiting st then
                 closeEditorAndSaveChanges st ctrlDown
               else (st, [])
      let q := moveSelectionRight p.1 ev.shiftKey
      (q.1, p.2 ++ q.2 ++ [Action.preventDefault, Action.stopPropagation])
  | KeyCode.ARROW_LEFT =>
      let p := if isEditorOpened st && !activeEditorIsWaiting st then
                 closeEditorAndSaveChanges st ctrlDown
               else (st, [])
      let q := moveSelectionLeft p.1 ev.shiftKey
      (q.1, p.2 ++ q.2 ++ [Action.preventDefault, Action.stopPropagation])
  | KeyCode.TAB =>
      let tabMoves := st.settings.tabMoves
      let q :=
        if ev.shiftKey then
          (transformStart st (-tabMoves.row) (-tabMoves.col) false,
           [Action.transformStart (-tabMoves.row) (-tabMoves.col) false])
        else
          (transformStart st tabMoves.row tabMoves.col true,
           [Action.transformStart tabMoves.row tabMoves.col true])
      (q.1, q.2 ++ [Action.preventDefault, Action.stopPropagation])
  | KeyCode.BACKSPACE =>
      let p := prepareEditor st
      (p.1, Action.emptySelectedCells :: p.2 ++ [Action.preventDefault])
  | KeyCode.DELETE =>
      let p := prepareEditor st
      (p.1, Action.emptySelectedCells :: p.2 ++ [Action.preventDefault])
  | KeyCode.F2 =>
      let tr0 := if st.activeEditor.isSome then [Action.enableFullEditMode] else []
      let p := openEditor st none (some ev)
      (p.1, tr0 ++ p.2 ++ [Action.preventDefault])
  | KeyCode.ENTER =>
      let p :=
        if isEditorOpened st then
          let c :=
            if st.activeEditor.isSome && !activeEditorIsWaiting st then
              closeEditorAndSaveChanges st ctrlDown
            else (st, [])
          let m := moveSelectionAfterEnter c.1 ev.shiftKey
          (m.1, c.2 ++ m.2)
        else if st.settings.enterBeginsEditing then
          let tr0 := if st.activeEditor.isSome then [Action.enableFullEditMode] else []
          let o := openEditor st none (some ev)
          (o.1, tr0 ++ o.2)
        else
          moveSelectionAfterEnter st ev.shiftKey
      (p.1, p.2 ++ [Action.preventDefault, Action.stopImmediatePropagation])
  | KeyCode.ESCAPE =>
      let p :=
        if isEditorOpened st then
          let c := closeEditorAndRestoreOriginalValue st ctrlDown
          (c.1, c.2 ++ [Action.focus])
        else (st, [])
      (p.1, p.2 ++ [Action.preventDefault])
  | KeyCode.HOME =>
      match st.selection with
      | some r =>
          let p :=
            if ev.ctrlKey || ev.metaKey then
              rangeModifier st ev.shiftKey { row := 0, col := r.«from».col }
            else
              rangeModifier st ev.shiftKey { row := r.«from».row, col := 0 }
          (p.1, p.2 ++ [Action.preventDefault, Action.stopPropagation])
      | none => (st, [Action.preventDefault, Action.stopPropagation])
  | KeyCode.END =>
      match st.selection with
      | some r =>
          let p :=
            if ev.ctrlKey || ev.metaKey then
              rangeModifier st ev.shiftKey { row := st.rows - 1, col := r.«from».col }
            else
              rangeModifier st ev.shiftKey { row := r.«from».row, col := st.cols - 1 }
          (p.1, p.2 ++ [Action.preventDefault, Action.stopPropagation])
      | none => (st, [Action.preventDefault, Action.stopPropagation])
  | KeyCode.PAGE_UP =>
      (transformStart st (-st.visibleRows) 0 false,
       [Action.transformStart (-st.visibleRows) 0 false,
        Action.preventDefault, Action.stopPropagation])
  | KeyCode.PAGE_DOWN =>
      (transformStart st st.visibleRows 0 false,
       [Action.transformStart st.visibleRows 0 false,
        Action.preventDefault, Action.stopPropagation])
  | _ => (st, [])

/-- `EditorManager.onKeyDown(event)` from `editorManager.js`: ignore when
not listening; run the `beforeKeyDown` hook; bail out when destroyed, on
the IME composition code 229, or when immediate propagation was stopped;
record the key code; ignore without a selection; open the prepared (not
yet open) editor with an empty string for printable keys; otherwise
dispatch on the key. -/
def onKeyDown (st : GridState) (ev : KeyEvent) : GridState × List Action :=
  if !st.listening then (st, [])
  else
    let tr : List Action := [Action.hook "beforeKeyDown"]
    if st.destroyed || ev.keyCode == KeyCode.other 229 then (st, tr)
    else if ev.stoppedByBeforeKeyDown then (st, tr)
    else
      let st1 := { st with lastKeyCode := ev.keyCode }
      match st1.selection with
      | none => (st1, tr)
      | some _ =>
        let ctrlDown := (ev.ctrlKey || ev.metaKey) && !ev.altKey
        if (st1.activeEditor.isSome && !activeEditorIsWaiting st1) &&
           (!isMetaKey ev.keyCode && !isCtrlMetaKey ev.keyCode && !ctrlDown &&
            !isEditorOpened st1) then
          let p := openEditor st1 (some "") (some ev)
          (p.1, tr ++ p.2)
        else
          let p := onKeyDownSwitch st1 ev ctrlDown
          (p.1, tr ++ p.2)

/-- `TableView.isTextSelectionAllowed(el)` from `tableView.js`. -/
def isTextSelectionAllowed (st : GridState) (el : DomTarget) : Bool :=
  if el.isInputEl then true
  else
    let isChildOfTableBody := el.isChildOfSpreader
    if st.settings.fragmentSelection == FragmentSelection.fsTrue
        && isChildOfTableBody then true
    else if st.settings.fragmentSelection == FragmentSelection.fsCell
        && isSelectedOnlyCell st && isChildOfTableBody then true
    else if !(st.settings.fragmentSelection.truthy)
        && isCellEdited st && isSelectedOnlyCell st then true
    else false

/-- The `rootElement` mousedown listener registered in
`TableView.registerEvents`: sets the drag flag; when text selection is
not allowed for the target it clears any text selection, prevents the
default and focuses the window. -/
def rootElementMouseDown (st : GridState) (priv : ViewPriv) (el : DomTarget) :
    ViewPriv × List Action :=
  let priv1 := { priv with selectionMouseDown := true }
  if !isTextSelectionAllowed st el then
    (priv1, [Action.clearTextSelection, Action.preventDefault, Action.windowFocus])
  else (priv1, [])

/-- The `rootElement` mousemove listener of `TableView.registerEvents`:
during a drag with text selection disallowed, it clears the document text
selection only when `fragmentSelection` is truthy (clearing otherwise
breaks the IME editor, per the source comment) and prevents the default. -/
def rootElementMouseMove (st : GridState) (priv : ViewPriv) (el : DomTarget) : List Action :=
  if priv.selectionMouseDown && !isTextSelectionAllowed st el then
    (if st.settings.fragmentSelection.truthy then [Action.clearTextSelection] else [])
      ++ [Action.preventDefault]
  else []

/-- `onCellMouseDown` walkontable callback from `tableView.js`.  `wt` is
the surface that raised the event; `stopped` is the value
`isImmediatePropagationStopped` returns after the before hook ran. -/
def onCellMouseDown (priv : ViewPriv) (wt : Nat) (stopped : Bool) : ViewPriv × List Action :=
  let priv1 := { priv with activeWt := wt, mouseDown := true }
  let tr := [Action.listen, Action.hook "beforeOnCellMouseDown"]
  if stopped then (priv1, tr)
  else
    ({ priv1 with activeWt := priv1.wt },
     tr ++ [Action.handleMouseEvent, Action.hook "afterOnCellMouseDown"])

/-- `onCellContextMenu` walkontable callback; `inProgress` is
`selection.isInProgress()`. -/
def onCellContextMenu (priv : ViewPriv) (inProgress : Bool) (wt : Nat) (stopped : Bool) :
    ViewPriv × List Action :=
  let priv1 := { priv with activeWt := wt, mouseDown := false }
  let tr := (if inProgress then [Action.selectionFinish] else [])
      ++ [Action.hook "beforeOnCellContextMenu"]
  if stopped then (priv1, tr)
  else ({ priv1 with activeWt := priv1.wt }, tr ++ [Action.hook "afterOnCellContextMenu"])

/-- `onCellMouseOut` walkontable callback. -/
def onCellMouseOut (priv : ViewPriv) (wt : Nat) (stopped : Bool) : ViewPriv × List Action :=
  let priv1 := { priv with activeWt := wt }
  let tr := [Action.hook "beforeOnCellMouseOut"]
  if stopped then (priv1, tr)
  else ({ priv1 with activeWt := priv1.wt }, tr ++ [Action.hook "afterOnCellMouseOut"])

/-- `onCellMouseOver` walkontable callback: the selection-update routine
runs only while the pointer is held. -/
def onCellMouseOver (priv : ViewPriv) (wt : Nat) (stopped : Bool) : ViewPriv × List Action :=
  let priv1 := { priv with activeWt := wt }
  let tr := [Action.hook "beforeOnCellMouseOver"]
  if stopped then (priv1, tr)
  else
    let tr1 := tr ++ (if priv1.mouseDown then [Action.handleMouseEvent] else [])
    ({ priv1 with activeWt := priv1.wt }, tr1 ++ [Action.hook "afterOnCellMouseOver"])

/-- `onCellMouseUp` walkontable callback: no early return, both hooks
always run and the active surface is always restored. -/
def onCellMouseUp (priv : ViewPriv) (wt : Nat) : ViewPriv × List Action :=
  let priv1 := { priv with activeWt := wt }
  ({ priv1 with activeWt := priv1.wt },
   [Action.hook "beforeOnCellMouseUp", Action.hook "afterOnCellMouseUp"])

/-- The ancestor walk of the document-level mousedown handler: `true`
means the walk fell through to the outside-click policy (the document
root was reached, or a web-component target's chain ended), `false` means
the handler returned early (the widget root container was met, or a
detached non-web-component target). -/
def ancestorWalk (isTargetWebComponent : Bool) : List DocNode → Bool
  | [] => isTargetWebComponent
  | n :: rest =>
    if n = DocNode.documentElement then true
    else if n = DocNode.rootElement then false
    else ancestorWalk isTargetWebComponent rest

/-- Evaluation of the `outsideClickDeselects` setting: a predicate is
applied to the original event target, a boolean is used as is. -/
def evalOutsideClickDeselects (s : OutsideClickSetting) (originalTarget : DocNode) : Bool :=
  match s with
  | OutsideClickSetting.obBool b => b
  | OutsideClickSetting.pred f => f originalTarget

/-- The document-level mousedown listener of `TableView.registerEvents`:
ignores events while a cell press is in progress or without a root
element; classifies a click on the scrollable holder by the two scrollbar
probes (`probeRight`/`probeBelow` tell whether `document.elementFromPoint`,
offset by the scrollbar width, still hits the holder); otherwise walks the
ancestor chain (`ancestors` lists the target's ancestors upward, ending
where `parentNode` becomes null unless the document root or the widget
root is met first).  On an outside click it applies the
`outsideClickDeselects` policy: clear the selection, or destroy the
active editor only. -/
def documentMouseDown (st : GridState) (priv : ViewPriv) (hasRootElement : Bool)
    (target : DocNode) (ancestors : List DocNode) (isTargetWebComponent : Bool)
    (probeRight probeBelow : Bool) : GridState × List Action :=
  if priv.mouseDown || !hasRootElement then (st, [])
  else
    let proceed :=
      if target = DocNode.holder then probeRight && probeBelow
      else ancestorWalk isTargetWebComponent (target :: ancestors)
    if proceed then
      let outsideClickDeselects :=
        evalOutsideClickDeselects st.settings.outsideClickDeselects target
      if outsideClickDeselects then ({ st with selection := none }, [Action.deselectCell])
      else (st, [Action.destroyEditorCall false false])
    else (st, [])

/-- The per-axis delta of the four arrow keys, used to state the arrow
dispatch property uniformly. -/
def arrowDelta (k : KeyCode) : Option (Int × Int) :=
  match k with
  | KeyCode.ARROW_UP => some (-1, 0)
  | KeyCode.ARROW_DOWN => some (1, 0)
  | KeyCode.ARROW_LEFT => some (0, -1)
  | KeyCode.ARROW_RIGHT => some (0, 1)
  | _ => none

/-- A concrete settings value used by the concrete-input theorems. -/
def sampleSettings : Settings :=
  { enterBeginsEditing := true,
    enterMoves := { row := 1, col := 0 },
    tabMoves := { row := 0, col := 1 },
    autoGrowRows := false,
    fragmentSelection := FragmentSelection.fsFalse,
    outsideClickDeselects := OutsideClickSetting.obBool true }

/-- A concrete 10 by 5 grid state, highlight at (2,2), no active editor,
used by the concrete-input theorems. -/
def sampleState : GridState :=
  { listening := true, destroyed := false, lock := false,
    lastKeyCode := KeyCode.other 0,
    selection := some { «from» := { row := 2, col := 2 },
                        «to» := { row := 2, col := 2 },
                        highlight := { row := 2, col := 2 } },
    activeEditor := none, resolvedEditorClass := none,
    rows := 10, cols := 5, visibleRows := 10,
    settings := sampleSettings }

/-- C1 counterexample: when the `beforeOnCellMouseDown` hook stops
immediate propagation, `onCellMouseDown` returns with the active surface
still set to the event's surface (1), not restored to the main surface
(0), refuting that the active-surface reference equals the main surface
on every exit path. -/
theorem c1_counterexample :
    ((onCellMouseDown
        { wt := 0, activeWt := 0, mouseDown := false, selectionMouseDown := false }
        1 true).1).activeWt ≠
      ({ wt := 0, activeWt := 0, mouseDown := false, selectionMouseDown := false } :
        ViewPriv).wt := by
  decide

/-- C1 amended: each pointer handler that reassigns the active-surface
reference restores it to the main surface on the normal completion path;
on the early return taken when the before hook stops immediate
propagation (cell mouse-down, mouse-over, mouse-out, context-menu) the
active surface is left at the event's surface; cell mouse-up has no
early return and always restores. -/
theorem c1_amended (priv : ViewPriv) (wt : Nat) (inProgress : Bool) :
    ((onCellMouseDown priv wt false).1.activeWt = priv.wt ∧
      (onCellMouseDown priv wt true).1.activeWt = wt) ∧
    ((onCellMouseOver priv wt false).1.activeWt = priv.wt ∧
      (onCellMouseOver priv wt true).1.activeWt = wt) ∧
    ((onCellMouseOut priv wt false).1.activeWt = priv.wt ∧
      (onCellMouseOut priv wt true).1.activeWt = wt) ∧
    ((onCellContextMenu priv inProgress wt false).1.activeWt = priv.wt ∧
      (onCellContextMenu priv inProgress wt true).1.activeWt = wt) ∧
    (onCellMouseUp priv wt).1.activeWt = priv.wt := by
  refine ⟨⟨?_, ?_⟩, ⟨?_, ?_⟩, ⟨?_, ?_⟩, ⟨?_, ?_⟩, ?_⟩ <;>
    simp [onCellMouseDown, onCellMouseOver, onCellMouseOut, onCellContextMenu,
      onCellMouseUp]

/-- C2 (code defect): running the column viewport override with
overscan `'auto'` and no fixed left pane on
`startRow = 0, endRow = 0, startColumn = 15, endColumn = 20` with 30
columns computes `offset = ceil(20 / 30 * 12) = 8` and then writes
`startRow := max(startColumn - offset, 0) = 7` while leaving
`startColumn` at 15, instead of mutating only the column-axis fields. -/
theorem c2_column_auto_writes_row_field :
    (viewportColumnCalculatorOverride 30 ViewportOffsetSetting.auto 0
        { startRow := 0, endRow := 0, startColumn := 15, endColumn := 20 }).1 =
      { startRow := 7, endRow := 0, startColumn := 15, endColumn := 28 } ∧
    mathCeilDiv (20 * 12) 30 = 8 := by
  constructor <;> decide

/-- C3: on each axis a numeric overscan N yields
`start = max(start - N, 0)` and `end = min(end + N, total - 1)`; with
`'auto'` and a fixed leading pane on that axis the same rule runs with N
forced to 10 and the proportional rule is skipped; in particular
total = 100, start = 10, end = 20, N = 5 gives start = 5, end = 25. -/
theorem c3_numeric_and_auto_fixed_overscan :
    (∀ (rows n : Int) (ft : Nat) (c : ViewportCalc),
      (viewportRowCalculatorOverride rows (ViewportOffsetSetting.num n) ft c).1 =
        { c with startRow := mathMax (c.startRow - n) 0,
                 endRow := mathMin (c.endRow + n) (rows - 1) }) ∧
    (∀ (cols n : Int) (fl : Nat) (c : ViewportCalc),
      (viewportColumnCalculatorOverride cols (ViewportOffsetSetting.num n) fl c).1 =
        { c with startColumn := mathMax (c.startColumn - n) 0,
                 endColumn := mathMin (c.endColumn + n) (cols - 1) }) ∧
    (∀ (rows : Int) (ft : Nat), ft ≠ 0 → ∀ c : ViewportCalc,
      (viewportRowCalculatorOverride rows ViewportOffsetSetting.auto ft c).1 =
        { c with startRow := mathMax (c.startRow - 10) 0,
                 endRow := mathMin (c.endRow + 10) (rows - 1) }) ∧
    (∀ (cols : Int) (fl : Nat), fl ≠ 0 → ∀ c : ViewportCalc,
      (viewportColumnCalculatorOverride cols ViewportOffsetSetting.auto fl c).1 =
        { c with startColumn := mathMax (c.startColumn - 10) 0,
                 endColumn := mathMin (c.endColumn + 10) (cols - 1) }) ∧
    (viewportRowCalculatorOverride 100 (ViewportOffsetSetting.num 5) 0
        { startRow := 10, endRow := 20, startColumn := 3, endColumn := 4 }).1 =
      { startRow := 5, endRow := 25, startColumn := 3, endColumn := 4 } := by
  refine ⟨?_, ?_, ?_, ?_, by decide⟩
  · intro rows n ft c
    simp [viewportRowCalculatorOverride]
  · intro cols n fl c
    simp [viewportColumnCalculatorOverride]
  · intro rows ft h c
    simp [viewportRowCalculatorOverride, h]
  · intro cols fl h c
    simp [viewportColumnCalculatorOverride, h]

/-- C3 witness: the `'auto'` + fixed-pane clause at a concrete input:
2 fixed rows, 50 total rows, window 10..20 widens by the fixed buffer 10
to 0..30. -/
theorem c3_witness : (2 : Nat) ≠ 0 ∧
    (viewportRowCalculatorOverride 50 ViewportOffsetSetting.auto 2
        { startRow := 10, endRow := 20, startColumn := 0, endColumn := 9 }).1 =
      { startRow := 0, endRow := 30, startColumn := 0, endColumn := 9 } := by
  refine ⟨by decide, ?_⟩
  rw [c3_numeric_and_auto_fixed_overscan.2.2.1 50 2 (by decide)
        { startRow := 10, endRow := 20, startColumn := 0, endColumn := 9 }]
  decide

/-- C8: after `lockEditor`, a reselect-driven close (`destroyEditor`)
leaves the whole state untouched and performs no editor call, so the
active editor instance is neither finished nor destroyed; after
`unlockEditor`, the same close asks the active editor to finish. -/
theorem c8_lock_suppresses_destroyEditor (st : GridState) (rv : Bool) :
    destroyEditor (lockEditor st) rv = (lockEditor st, []) ∧
    (∀ e, st.activeEditor = some e →
      destroyEditor (unlockEditor st) rv =
        (unlockEditor st, [Action.finishEditing rv none none])) := by
  constructor
  · simp [destroyEditor, lockEditor]
  · intro e h
    simp [destroyEditor, unlockEditor, closeEditor, h]

/-- C8 witness: the lock/unlock behaviour at a concrete state with an
open active editor. -/
theorem c8_witness :
    destroyEditor (lockEditor { sampleState with activeEditor := some ⟨true, false, false⟩ })
        false =
      (lockEditor { sampleState with activeEditor := some ⟨true, false, false⟩ }, []) ∧
    destroyEditor (unlockEditor { sampleState with activeEditor := some ⟨true, false, false⟩ })
        false =
      (unlockEditor { sampleState with activeEditor := some ⟨true, false, false⟩ },
       [Action.finishEditing false none none]) := by
  exact ⟨(c8_lock_suppresses_destroyEditor _ false).1,
    (c8_lock_suppresses_destroyEditor _ false).2 ⟨true, false, false⟩ rfl⟩

/-- C9: `closeEditor` with no active editor invokes the callback with
`false` synchronously and performs no other work, leaving the state
unchanged (and does nothing when no callback was passed); with an active
editor it delegates to that editor's `finishEditing` with the same
revert flag, modifier flag and callback. -/
theorem c9_closeEditor_delegation (st : GridState) (rv : Bool) (ctrl : Option Bool)
    (cb : Nat) (cbOpt : Option Nat) :
    (st.activeEditor = none →
      closeEditor st rv ctrl (some cb) = (st, [Action.invokeCallback cb false]) ∧
      closeEditor st rv ctrl none = (st, [])) ∧
    (∀ e, st.activeEditor = some e →
      closeEditor st rv ctrl cbOpt = (st, [Action.finishEditing rv ctrl cbOpt])) := by
  constructor
  · intro h
    constructor <;> simp [closeEditor, h]
  · intro e h
    simp [closeEditor, h]

/-- C9 witness: both clauses at concrete states. -/
theorem c9_witness :
    closeEditor sampleState false (some false) (some 7) =
      (sampleState, [Action.invokeCallback 7 false]) ∧
    closeEditor { sampleState with activeEditor := some ⟨true, false, false⟩ }
        true (some true) none =
      ({ sampleState with activeEditor := some ⟨true, false, false⟩ },
       [Action.finishEditing true (some true) none]) := by
  exact ⟨((c9_closeEditor_delegation sampleState false (some false) 7 none).1 rfl).1,
    (c9_closeEditor_delegation _ true (some true) 7 none).2 ⟨true, false, false⟩ rfl⟩

/-- `isSelectedOnlyCell` holds exactly when the last selected range
exists and reads back as `[row, col, row, col]`. -/
theorem isSelectedOnlyCell_iff (st : GridState) :
    isSelectedOnlyCell st = true ↔
      ∃ row col, getSelectedLast st = some (row, col, row, col) := by
  unfold isSelectedOnlyCell
  cases h : getSelectedLast st with
  | none => simp
  | some t =>
    obtain ⟨row, col, rowEnd, colEnd⟩ := t
    simp only [Bool.and_eq_true, beq_iff_eq, Option.some.injEq]
    constructor
    · rintro ⟨h1, h2⟩
      exact ⟨row, col, by simp [h1, h2]⟩
    · rintro ⟨a, b, h3⟩
      obtain ⟨h4, h5, h6, h7⟩ := Prod.mk.injEq .. ▸ h3
      simp_all

/-- C6: `isTextSelectionAllowed` returns true exactly when the target is
a native text-input element; or `fragmentSelection === true` and the
target is inside the grid body; or `fragmentSelection === 'cell'`,
exactly one cell is selected and the target is inside the grid body; or
`fragmentSelection` is falsy, an editor is currently open and exactly
one cell is selected.  With `'cell'` and a selection spanning two or
more cells, every non-input target therefore yields false. -/
theorem c6_isTextSelectionAllowed_iff (st : GridState) (el : DomTarget) :
    isTextSelectionAllowed st el = true ↔
      (el.isInputEl = true ∨
        (st.settings.fragmentSelection = FragmentSelection.fsTrue ∧
          el.isChildOfSpreader = true) ∨
        (st.settings.fragmentSelection = FragmentSelection.fsCell ∧
          (∃ row col, getSelectedLast st = some (row, col, row, col)) ∧
          el.isChildOfSpreader = true) ∨
        (st.settings.fragmentSelection = FragmentSelection.fsFalse ∧
          isCellEdited st = true ∧
          (∃ row col, getSelectedLast st = some (row, col, row, col)))) := by
  simp only [← isSelectedOnlyCell_iff]
  cases h1 : el.isInputEl <;> cases h2 : el.isChildOfSpreader <;>
    cases h3 : st.settings.fragmentSelection <;>
      cases h4 : isSelectedOnlyCell st <;> cases h5 : isCellEdited st <;>
        simp [isTextSelectionAllowed, FragmentSelection.truthy, h1, h2, h3, h4, h5]

/-- C7 counterexample: with `fragmentSelection` falsy (and no editor
open), a mousemove during a held press over a disallowed, non-input
target prevents the default but does not clear the document text
selection, refuting that a disallowed drag always does both. -/
theorem c7_counterexample :
    isTextSelectionAllowed sampleState
        { isInputEl := false, isChildOfSpreader := true } = false ∧
    rootElementMouseMove sampleState
        { wt := 0, activeWt := 0, mouseDown := true, selectionMouseDown := true }
        { isInputEl := false, isChildOfSpreader := true } =
      [Action.preventDefault] := by
  constructor <;> rfl

/-- C7 amended: for a drag while the pointer is held with text selection
disallowed for the target, the router always prevents the event's
default, and clears the existing document text selection exactly when
the `fragmentSelection` setting is truthy. -/
theorem c7_disallowed_drag (st : GridState) (priv : ViewPriv) (el : DomTarget)
    (h1 : priv.selectionMouseDown = true)
    (h2 : isTextSelectionAllowed st el = false) :
    rootElementMouseMove st priv el =
      (if st.settings.fragmentSelection.truthy then [Action.clearTextSelection] else [])
        ++ [Action.preventDefault] := by
  simp [rootElementMouseMove, h1, h2]

/-- C7 witness: with `fragmentSelection = 'cell'` and a two-cell
selection, a held drag over a non-input target is disallowed and the
router clears the text selection and prevents the default. -/
theorem c7_witness :
    isTextSelectionAllowed
        { sampleState with
            settings := { sampleSettings with fragmentSelection := FragmentSelection.fsCell },
            selection := some { «from» := { row := 2, col := 2 },
                                «to» := { row := 3, col := 2 },
                                highlight := { row := 2, col := 2 } } }
        { isInputEl := false, isChildOfSpreader := true } = false ∧
    rootElementMouseMove
        { sampleState with
            settings := { sampleSettings with fragmentSelection := FragmentSelection.fsCell },
            selection := some { «from» := { row := 2, col := 2 },
                                «to» := { row := 3, col := 2 },
                                highlight := { row := 2, col := 2 } } }
        { wt := 0, activeWt := 0, mouseDown := true, selectionMouseDown := true }
        { isInputEl := false, isChildOfSpreader := true } =
      [Action.clearTextSelection, Action.preventDefault] := by
  refine ⟨by decide, ?_⟩
  rw [c7_disallowed_drag _ _ _ rfl (by decide)]
  rfl

/-- C5: a document-level mousedown resolved as an outside click (the
ancestor walk fell through to the policy, or the immediate target is the
holder and both scrollbar probes still hit it) clears the selection when
the `outsideClickDeselects` policy evaluates true on the original
target, and otherwise issues only a destroy of the active editor,
leaving the state, in particular the selection, unchanged. -/
theorem c5_outside_click_policy (st : GridState) (priv : ViewPriv)
    (target : DocNode) (ancestors : List DocNode) (webComp pr pb : Bool)
    (hMouse : priv.mouseDown = false)
    (hOutside : (if target = DocNode.holder then pr && pb
                 else ancestorWalk webComp (target :: ancestors)) = true) :
    (evalOutsideClickDeselects st.settings.outsideClickDeselects target = true →
      documentMouseDown st priv true target ancestors webComp pr pb =
        ({ st with selection := none }, [Action.deselectCell])) ∧
    (evalOutsideClickDeselects st.settings.outsideClickDeselects target = false →
      documentMouseDown st priv true target ancestors webComp pr pb =
        (st, [Action.destroyEditorCall false false])) := by
  constructor <;> intro h <;>
    simp [documentMouseDown, hMouse, hOutside, h]

/-- C5 witness: an outside click on an ordinary detached-from-the-widget
element whose chain reaches the document root; with
`outsideClickDeselects = true` the selection is cleared, with `false`
only the editor-destroy call is issued and the state is unchanged. -/
theorem c5_witness :
    documentMouseDown sampleState
        { wt := 0, activeWt := 0, mouseDown := false, selectionMouseDown := false }
        true (DocNode.other 3) [DocNode.documentElement] false false false =
      ({ sampleState with selection := none }, [Action.deselectCell]) ∧
    documentMouseDown
        { sampleState with
            settings := { sampleSettings with
                outsideClickDeselects := OutsideClickSetting.obBool false } }
        { wt := 0, activeWt := 0, mouseDown := false, selectionMouseDown := false }
        true (DocNode.other 3) [DocNode.documentElement] false false false =
      ({ sampleState with
          settings := { sampleSettings with
              outsideClickDeselects := OutsideClickSetting.obBool false } },
       [Action.destroyEditorCall false false]) := by
  exact ⟨(c5_outside_click_policy sampleState _ _ _ false false false rfl (by decide)).1 rfl,
    (c5_outside_click_policy _ _ _ _ false false false rfl (by decide)).2 rfl⟩

/-- C10: while a selection exists and the active editor is prepared but
neither waiting nor opened, a keydown whose key is not a meta/navigation
key, not a ctrl/meta key code, and with no Ctrl/Meta held, is answered
by invoking `openEditor` with an empty-string initial value, and the
key-specific dispatch is skipped: the handler's whole effect is the
`beforeKeyDown` hook, the key-code bookkeeping and that call. -/
theorem c10_printable_key_opens_editor (st : GridState) (ev : KeyEvent) (r : CellRange)
    (e : ActiveEditor)
    (hl : st.listening = true) (hd : st.destroyed = false)
    (hk : ev.keyCode ≠ KeyCode.other 229)
    (hs : ev.stoppedByBeforeKeyDown = false)
    (hsel : st.selection = some r)
    (he : st.activeEditor = some e) (hw : e.waiting = false) (ho : e.opened = false)
    (hm : isMetaKey ev.keyCode = false) (hcm : isCtrlMetaKey ev.keyCode = false)
    (hc : ((ev.ctrlKey || ev.metaKey) && !ev.altKey) = false) :
    onKeyDown st ev =
      ((openEditor { st with lastKeyCode := ev.keyCode } (some "") (some ev)).1,
       Action.hook "beforeKeyDown" ::
         (openEditor { st with lastKeyCode := ev.keyCode } (some "") (some ev)).2) := by
  simp [onKeyDown, hl, hd, hs, hsel, he, hw, ho, hm, hcm, hc, hk,
    activeEditorIsWaiting, isEditorOpened]

/-- C10 witness: key code 66 with an editable prepared editor opens it
with the empty string and nothing else happens. -/
theorem c10_witness :
    onKeyDown { sampleState with activeEditor := some ⟨false, false, false⟩ }
        { keyCode := KeyCode.other 66, shiftKey := false, ctrlKey := false,
          metaKey := false, altKey := false, stoppedByBeforeKeyDown := false } =
      ({ sampleState with
          activeEditor := some ⟨false, false, false⟩,
          lastKeyCode := KeyCode.other 66 },
       [Action.hook "beforeKeyDown", Action.beginEditing (some "")]) := by
  rw [c10_printable_key_opens_editor
        { sampleState with activeEditor := some ⟨false, false, false⟩ }
        { keyCode := KeyCode.other 66, shiftKey := false, ctrlKey := false,
          metaKey := false, altKey := false, stoppedByBeforeKeyDown := false }
        { «from» := { row := 2, col := 2 }, «to» := { row := 2, col := 2 },
          highlight := { row := 2, col := 2 } }
        ⟨false, false, false⟩ rfl rfl (by decide) rfl rfl rfl rfl rfl
        (by decide) (by decide) rfl]
  rfl

/-- C4: an arrow keydown processed with a selection present first
commits the open, non-waiting editor (`finishEditing` with
revert = false) and only then moves; without Shift the anchor and
highlight move by the axis delta through `transformStart` (the range
collapses onto the clamped target), and with Shift only the range's
open end moves through `transformEnd` while the anchor and highlight
stay fixed. -/
theorem c4_arrow_keys (st : GridState) (ev : KeyEvent) (r : CellRange) (dr dc : Int)
    (hl : st.listening = true) (hd : st.destroyed = false)
    (hs : ev.stoppedByBeforeKeyDown = false)
    (hsel : st.selection = some r)
    (harrow : arrowDelta ev.keyCode = some (dr, dc)) :
    onKeyDown st ev =
      ((if ev.shiftKey then transformEnd { st with lastKeyCode := ev.keyCode } dr dc
        else transformStart { st with lastKeyCode := ev.keyCode } dr dc false),
       Action.hook "beforeKeyDown" ::
         ((if isEditorOpened st && !activeEditorIsWaiting st then
             [Action.finishEditing false (some ((ev.ctrlKey || ev.metaKey) && !ev.altKey)) none]
           else []) ++
          [(if ev.shiftKey then Action.transformEnd dr dc
            else Action.transformStart dr dc false),
           Action.preventDefault, Action.stopPropagation])) ∧
    (transformEnd { st with lastKeyCode := ev.keyCode } dr dc).selection =
      some { r with «to» := clampCoord st.rows st.cols
                      { row := r.«to».row + dr, col := r.«to».col + dc } } ∧
    (transformStart { st with lastKeyCode := ev.keyCode } dr dc false).selection =
      some { «from» := clampCoord st.rows st.cols
                { row := r.highlight.row + dr, col := r.highlight.col + dc },
             «to» := clampCoord st.rows st.cols
                { row := r.highlight.row + dr, col := r.highlight.col + dc },
             highlight := clampCoord st.rows st.cols
                { row := r.highlight.row + dr, col := r.highlight.col + dc } } := by
  cases hkc : ev.keyCode <;> simp [hkc, arrowDelta] at harrow
  all_goals obtain ⟨hdr, hdc⟩ := harrow
  all_goals subst hdr
  all_goals subst hdc
  all_goals
    refine ⟨?_, by simp [transformEnd, hsel], by simp [transformStart, hsel]⟩
  all_goals rcases hae : st.activeEditor with _ | e
  all_goals try cases ho : e.opened
  all_goals try cases hw : e.waiting
  all_goals cases hsk : ev.shiftKey
  all_goals
    simp [onKeyDown, onKeyDownSwitch, hl, hd, hs, hsel, hae, hkc, hsk,
      isEditorOpened, activeEditorIsWaiting, isMetaKey,
      moveSelectionUp, moveSelectionDown, moveSelectionLeft, moveSelectionRight,
      closeEditorAndSaveChanges, closeEditor, *]

/-- C4 witness: on the 10 by 5 grid with highlight (2,2) and an open,
non-waiting editor, plain Arrow Down commits the editor first and moves
the collapsed selection to (3,2). -/
theorem c4_witness :
    onKeyDown { sampleState with activeEditor := some ⟨true, false, false⟩ }
        { keyCode := KeyCode.ARROW_DOWN, shiftKey := false, ctrlKey := false,
          metaKey := false, altKey := false, stoppedByBeforeKeyDown := false } =
      ({ sampleState with
          activeEditor := some ⟨true, false, false⟩,
          lastKeyCode := KeyCode.ARROW_DOWN,
          selection := some { «from» := { row := 3, col := 2 },
                              «to» := { row := 3, col := 2 },
                              highlight := { row := 3, col := 2 } } },
       [Action.hook "beforeKeyDown", Action.finishEditing false (some false) none,
        Action.transformStart 1 0 false, Action.preventDefault,
        Action.stopPropagation]) := by
  rw [(c4_arrow_keys
        { sampleState with activeEditor := some ⟨true, false, false⟩ }
        { keyCode := KeyCode.ARROW_DOWN, shiftKey := false, ctrlKey := false,
          metaKey := false, altKey := false, stoppedByBeforeKeyDown := false }
        { «from» := { row := 2, col := 2 }, «to» := { row := 2, col := 2 },
          highlight := { row := 2, col := 2 } }
        1 0 rfl rfl rfl rfl rfl).1]
  rfl

end HT
